import Mathlib

/-!
Verification of the terraform-prompt-template content generator.

The Python sources (`gemini_generator.py`, `main.py`, `models.py`) are shallowly
embedded below: pure string/list manipulation is translated into executable Lean
functions, and every interaction with an external collaborator (the Gemini SDK,
the GitHub HTTP API, base64/UTF-8 decoding) is represented by an explicit oracle
parameter describing the collaborator's outcome.  Python strings are modelled as
Lean `String`s, Python dicts whose keys are statically known as association
lists `List (String × _)` in insertion order, and Python exceptions as
`Except String _` values.
-/

namespace TfPrompt

/-! ## String primitives

Python `str` operations used by the sources, modelled over `String.data`
(`List Char`) so that every definition is structurally recursive and
kernel-evaluable. -/

/-- `pat.isPrefixOf s` lifted to the containment scan used to model the Python
`in` operator on strings: `true` iff `pat` occurs as a contiguous substring. -/
def charsHave (pat : List Char) : List Char → Bool
  | [] => pat.isEmpty
  | c :: rest => pat.isPrefixOf (c :: rest) || charsHave pat rest

/-- Model of the Python expression `pat in s` (substring containment). -/
def sContains (s pat : String) : Bool :=
  charsHave pat.data s.data

/-- Model of Python `s.startswith(pat)`. -/
def sStartsWith (s pat : String) : Bool :=
  pat.data.isPrefixOf s.data

/-- Model of Python `s[n:]`. -/
def sDrop (s : String) (n : Nat) : String :=
  ⟨s.data.drop n⟩

/-- Character-list worker for `sReplace`: scan left to right; when the skip
counter is zero and `pat` matches at the current position, emit `rep` and set
the counter to swallow the rest of the match; a positive counter swallows one
matched character per step.  This computes every non-overlapping,
leftmost-first replacement — the semantics of Python `str.replace` for a
non-empty pattern, the only way the sources call it. -/
def replGo (pat rep : List Char) : Nat → List Char → List Char
  | _, [] => []
  | 0, c :: rest =>
    if pat.isPrefixOf (c :: rest) then rep ++ replGo pat rep (pat.length - 1) rest
    else c :: replGo pat rep 0 rest
  | Nat.succ k, _ :: rest => replGo pat rep k rest

/-- Model of Python `s.replace(pat, rep)` (non-empty `pat`). -/
def sReplace (s pat rep : String) : String :=
  ⟨replGo pat.data rep.data 0 s.data⟩

/-- Model of Python `sep.join(parts)`. -/
def sepJoin (sep : String) : List String → String
  | [] => ""
  | [x] => x
  | x :: y :: rest => x ++ sep ++ sepJoin sep (y :: rest)

/-- Model of Python `s.replace('\n', '')` as used on base64 payloads. -/
def removeNewlines (s : String) : String :=
  ⟨s.data.filter (fun c => c ≠ '\n')⟩

/-! ## `get_available_model` (gemini_generator.py lines 84-136)

The probe `genai.GenerativeModel(m).generate_content("Test")` either succeeds
or raises; it is modelled by a boolean oracle `probe : String → Bool`. -/

/-- The prefix normalisation at the top of `get_available_model`: strip a
leading `google-gla:` (Python `split(':', 1)[1]`, the colon being at index 10)
and then a leading `models/`. -/
def stripModelName (requested : String) : String :=
  let r := if sStartsWith requested "google-gla:" then sDrop requested 11 else requested
  if sStartsWith r "models/" then sDrop r 7 else r

/-- The hardcoded fallback list `candidate_models` (lines 106-121), in source
order. -/
def candidate_models : List String :=
  ["gemini-2.5-pro-preview-05-06",
   "gemini-2.5-flash-preview-04-17",
   "gemini-2.0-pro",
   "gemini-2.0-flash",
   "gemini-2.0-flash-lite",
   "gemini-1.5-pro",
   "gemini-1.5-flash",
   "gemini-1.5-flash-8b",
   "gemini-1.0-pro",
   "gemini-pro"]

/-- The `for candidate in candidate_models` loop (lines 123-136): return the
first candidate whose probe succeeds, or the literal `"gemini-pro"` once the
list is exhausted. -/
def tryCandidates (probe : String → Bool) : List String → String
  | [] => "gemini-pro"
  | c :: rest => if probe c then c else tryCandidates probe rest

/-- `get_available_model(requested_model)`: normalise the name, probe it, and
fall back to the candidate walk.  Total by construction — the Python function
catches every exception internally and never raises. -/
def get_available_model (probe : String → Bool) (requested : String) : String :=
  let r := stripModelName requested
  if probe r then r else tryCandidates probe candidate_models

/-! ## Sampling-configuration clamping (spec §4.2)

Modelled from the spec: no `clamp` or `get_capabilities` function appears under
`src/`; the spec's §4.2 describes them as part of the model-capability prober.
The definitions below follow the spec's words: "`clamp(config: SamplingConfig,
caps: ModelCapabilities) -> SamplingConfig` lowers/raises out-of-range fields to
the nearest valid bound"; temperature is kept in `[0, caps.temperature_ceiling]`,
`top_p` in `[0,1]`, `top_k > 0`, `max_output_tokens` in
`(0, caps.output_token_ceiling]`.  Float fields are modelled as rationals
(only order comparisons are involved), integer fields as integers. -/

/-- Modelled from the spec: the sampling configuration of §3
(temperature, top_p, top_k, max_output_tokens, candidate_count). -/
structure SamplingConfig where
  temperature : ℚ
  top_p : ℚ
  top_k : ℤ
  max_output_tokens : ℤ
  candidate_count : ℤ
deriving DecidableEq, Repr

/-- Modelled from the spec: provider-reported model capabilities of §3. -/
structure ModelCapabilities where
  temperature_ceiling : ℚ
  default_top_p : ℚ
  default_top_k : ℤ
  output_token_ceiling : ℤ
deriving DecidableEq, Repr

/-- Modelled from the spec (§4.2): move each out-of-range sampling field to the
nearest valid bound; all other fields are untouched. -/
def clamp (c : SamplingConfig) (caps : ModelCapabilities) : SamplingConfig :=
  { temperature := max 0 (min c.temperature caps.temperature_ceiling)
    top_p := max 0 (min c.top_p 1)
    top_k := max 1 c.top_k
    max_output_tokens := max 1 (min c.max_output_tokens caps.output_token_ceiling)
    candidate_count := c.candidate_count }

/-! ## `create_template_with_placeholders` (gemini_generator.py lines 459-507)

The Python function takes only the content, the `%`-format string and the list
of variable names; its inputs here are typed, so the `isinstance` fallback
branches (lines 471-486) are vacuous and the trailing `except` (line 504) can
never fire.  `placeholder_format % var_name` is modelled for format strings
whose only directive is a single `%s`, which is how every call site builds
them. -/

/-- The allow-list at line 500 of `gemini_generator.py`. -/
def validPlaceholderVarNames : List String :=
  ["project_name", "repo_org", "project_type", "programming_language"]

/-- Model of `placeholder_format % var_name` for a format string containing the
single directive `%s`. -/
def pctFormat (fmt varName : String) : String :=
  sReplace fmt "%s" varName

/-- `create_template_with_placeholders(content, placeholder_format,
placeholder_vars)`: the `replacements` dict comprehension keeps the first
occurrence of each variable name (modelled by `eraseDups`), and the loop
replaces the literal substring `var_name` — the Python code interpolates
`f"{var_name}"`, which is just the variable's *name* — by the rendered
placeholder, gated by the allow-list. -/
def create_template_with_placeholders (content fmt : String) (vars : List String) : String :=
  vars.eraseDups.foldl
    (fun acc varName =>
      if validPlaceholderVarNames.contains varName then
        sReplace acc varName (pctFormat fmt varName)
      else acc)
    content

/-! ## `convert_json_to_markdown` (gemini_generator.py lines 775-814)

The input is a parsed JSON dict accessed with `.get` and defaults; a field that
is absent from the dict is `none` here.  Python truthiness of
`json_data.get("copilot_instructions")` collapses the absent and empty-string
cases. -/

/-- The dictionary shape consumed by `convert_json_to_markdown`: each field is
`none` when the key is absent from the parsed JSON object. -/
structure JsonDoc where
  readme_content : Option String
  best_practices : Option (List String)
  suggested_extensions : Option (List String)
  documentation_source : Option (List String)
  copilot_instructions : Option String
deriving Repr

/-- One `- item` bullet line per list element, as appended by the three
`for` loops. -/
def bullets (items : List String) : String :=
  String.join (items.map (fun x => "- " ++ x ++ "\n"))

/-- `convert_json_to_markdown(json_data)`: the concatenation of every string
appended to the `md` list, in source order.  The `## GitHub Copilot
Instructions` block is appended only when `json_data.get("copilot_instructions")`
is truthy (present and non-empty). -/
def convert_json_to_markdown (j : JsonDoc) : String :=
  (j.readme_content.getD "No content available") ++ "\n\n"
    ++ "## Best Practices\n" ++ bullets (j.best_practices.getD []) ++ "\n"
    ++ "## Recommended VS Code Extensions\n" ++ bullets (j.suggested_extensions.getD []) ++ "\n"
    ++ "## Documentation Sources\n" ++ bullets (j.documentation_source.getD []) ++ "\n"
    ++ (if j.copilot_instructions.getD "" ≠ "" then
          "## GitHub Copilot Instructions\n" ++ j.copilot_instructions.getD "" ++ "\n\n"
        else "")

/-! ## `ProjectOutput` and `MainContentGenerator.generate` (models.py lines
22-30, main.py lines 127-168)

Pydantic values are heterogeneous (strings, lists of strings); a model instance
is the association list of its stored field values.  Pydantic v2's default
configuration *ignores* extra keyword arguments: constructing a model keeps
exactly the keywords whose names are declared fields and silently drops the
rest. -/

/-- A Python value stored in a pydantic field: a string or a list of strings. -/
inductive PyV where
  | s : String → PyV
  | ls : List String → PyV
deriving DecidableEq, Repr

/-- The declared fields of `ProjectOutput` in `models.py` (lines 22-30), in
source order.  Note: no `error` and no `stack_trace` field is declared. -/
def projectOutputFields : List String :=
  ["readme_content", "best_practices", "suggested_extensions",
   "documentation_source", "copilot_instructions", "project_type",
   "programming_language"]

/-- Pydantic model construction under the default `extra='ignore'`
configuration: keep the keyword arguments naming declared fields, drop the
rest; never raises on extra keywords. -/
def pydanticInit (fields : List String) (kwargs : List (String × PyV)) :
    List (String × PyV) :=
  kwargs.filter (fun kv => fields.contains kv.1)

/-- The `except` branch of `MainContentGenerator.generate` (main.py lines
158-168): the `ProjectOutput(...)` call with the nine keyword arguments of the
source, including `error=error_msg` and `stack_trace=stack_trace`, evaluated
under pydantic construction semantics for the fields that `models.py`
declares. -/
def mainGenerateOnException (error_msg stack_trace : String) :
    List (String × PyV) :=
  pydanticInit projectOutputFields
    [("readme_content",
      PyV.s ("# Error in Main Content Generation\n\nError: " ++ error_msg
        ++ "\n\n```\n" ++ stack_trace ++ "\n```")),
     ("best_practices", PyV.ls []),
     ("suggested_extensions", PyV.ls []),
     ("documentation_source", PyV.ls []),
     ("copilot_instructions", PyV.s ""),
     ("project_type", PyV.s "Unknown"),
     ("programming_language", PyV.s "Unknown"),
     ("error", PyV.s error_msg),
     ("stack_trace", PyV.s stack_trace)]

/-! ## `fetch_github_template` (gemini_generator.py lines 388-457)

The HTTP layer is an oracle: the parsed response is either a transport error
(any `requests` exception, including the one raised by `raise_for_status`), a
JSON array (directory listing), or a JSON object with an optional base64
`content` field.  Base64+UTF-8 decoding is the external library oracle
`b64decodeUtf8`; a decoding failure is wrapped by the final
`except Exception` clause.  A raised `ValueError` is `Except.error msg`. -/

/-- Outcome of `requests.get(...)` + `response.json()` for the template URL. -/
inductive GithubResponse where
  | transportError : String → GithubResponse
  | dir : GithubResponse
  | file : Option String → GithubResponse
deriving Repr

/-- `fetch_github_template(repo, path, ref, api_url_base)`.  The URL assembly
(lines 405-427) does not affect which error is raised and is elided; `resp` is
the oracle outcome for the single GET request. -/
def fetch_github_template (repo path : String) (resp : GithubResponse)
    (b64decodeUtf8 : String → Except String String) : Except String String :=
  match resp with
  | GithubResponse.transportError m =>
      Except.error ("Failed to fetch template from " ++ repo ++ "/" ++ path ++ ": " ++ m)
  | GithubResponse.dir =>
      Except.error ("Path \x27" ++ path ++ "\x27 refers to a directory, not a file")
  | GithubResponse.file none =>
      Except.error ("No content found in the response for " ++ path)
  | GithubResponse.file (some raw) =>
      match b64decodeUtf8 (removeNewlines raw) with
      | Except.ok text => Except.ok text
      | Except.error m =>
          Except.error ("Failed to fetch template from " ++ repo ++ "/" ++ path ++ ": " ++ m)

/-! ## JSON serialization (`json.dumps`)

Enough of `json.dumps` to serialize the dictionaries the sources build: objects
in insertion order, strings, arrays of strings, and the grounding-source
objects.  Escaping covers the characters the sources can produce; non-ASCII
`\uXXXX` escaping and `indent` whitespace are elided (no claim depends on
them). -/

/-- JSON string escaping for one character. -/
def escJsonChar (c : Char) : List Char :=
  if c = '"' then ['\\', '"']
  else if c = '\\' then ['\\', '\\']
  else if c = '\n' then ['\\', 'n']
  else if c = '\t' then ['\\', 't']
  else if c = '\r' then ['\\', 'r']
  else [c]

/-- A JSON string literal. -/
def jsonStr (s : String) : String :=
  "\"" ++ String.mk ((s.data.map escJsonChar).flatten) ++ "\""

/-- A JSON value appearing in the generator's `main_content` dict: a string, an
array of strings, or the array of `{uri, title}` grounding-source objects. -/
inductive JVal where
  | s : String → JVal
  | arr : List String → JVal
  | srcs : List (String × String) → JVal
deriving Repr

/-- One grounding-source object `{"uri": ..., "title": ...}`. -/
def renderSource (p : String × String) : String :=
  "\x7b" ++ jsonStr "uri" ++ ": " ++ jsonStr p.1 ++ ", "
    ++ jsonStr "title" ++ ": " ++ jsonStr p.2 ++ "\x7d"

/-- Serialize one JSON value. -/
def JVal.render : JVal → String
  | JVal.s v => jsonStr v
  | JVal.arr vs => "[" ++ sepJoin ", " (vs.map jsonStr) ++ "]"
  | JVal.srcs ps => "[" ++ sepJoin ", " (ps.map renderSource) ++ "]"

/-- Serialize a JSON object from its entries in insertion order
(`json.dumps` of a dict). -/
def jsonObjRender (kvs : List (String × JVal)) : String :=
  "\x7b" ++ sepJoin ", " (kvs.map (fun kv => jsonStr kv.1 ++ ": " ++ kv.2.render)) ++ "\x7d"

/-! ## `generate_content` (gemini_generator.py lines 510-772)

The agent run is an oracle: `RunOutcome.raised msg` covers every exception
escaping the `run_sync` block (line 606 wraps it as
`ValueError("Failed to generate content: ...")` before the outer handler
catches it at line 760, which also catches the rarer failures of agent
construction), and `RunOutcome.ok out?` a completed run, where `out? = none`
models a result without a usable `output` attribute (lines 691-699).  An
`AgentOutput` field is `none` when the attribute is missing or `None`.  The
grounding metadata walk (lines 610-663) is abstracted to the extracted
sources/queries. -/

/-- Fields of the structured agent output, each `none` when the attribute is
missing or `None` (the code then substitutes a default). -/
structure AgentOutput where
  readme_content : Option String
  best_practices : Option (List String)
  suggested_extensions : Option (List String)
  documentation_source : Option (List String)
  copilot_instructions : Option String
  project_type : Option String
  programming_language : Option String
deriving Repr

/-- Outcome of the content agent run. -/
inductive RunOutcome where
  | raised : String → RunOutcome
  | ok : Option AgentOutput → RunOutcome
deriving Repr

/-- External-world outcomes consumed by one `generate_content` call. -/
structure GenEnv where
  run : RunOutcome
  run_tb : String
  grounding_sources : List (String × String)
  search_queries : List String
deriving Repr

/-- The `main_content` dict after the field-extraction loop (lines 666-699):
per-field defaults when the output is present, the fixed error dict when it is
missing. -/
def mainContentBase (out? : Option AgentOutput) : List (String × JVal) :=
  match out? with
  | some o =>
      [("readme_content", JVal.s (o.readme_content.getD "")),
       ("best_practices", JVal.arr (o.best_practices.getD [])),
       ("suggested_extensions", JVal.arr (o.suggested_extensions.getD [])),
       ("documentation_source", JVal.arr (o.documentation_source.getD [])),
       ("copilot_instructions", JVal.s (o.copilot_instructions.getD ""))]
  | none =>
      [("readme_content", JVal.s "Error: Failed to generate content."),
       ("best_practices", JVal.arr []),
       ("suggested_extensions", JVal.arr []),
       ("documentation_source", JVal.arr []),
       ("copilot_instructions", JVal.s "")]

/-- The placeholder pass of lines 702-707: when requested, rewrite every string
value of `main_content` through `create_template_with_placeholders`. -/
def applyPlaceholders (cwp : Bool) (fmt : String) (vars : List String)
    (mc : List (String × JVal)) : List (String × JVal) :=
  if cwp then
    mc.map (fun kv =>
      match kv.2 with
      | JVal.s v => (kv.1, JVal.s (create_template_with_placeholders v fmt vars))
      | other => (kv.1, other))
  else mc

/-- The JSON object serialized into the `"main"` entry: the processed
`main_content`, with the grounding keys appended when sources were found
(lines 710-712); the empty object on the error branch (`json.dumps({})`). -/
def generate_content_obj (env : GenEnv) (cwp : Bool) (fmt : String)
    (vars : List String) : List (String × JVal) :=
  match env.run with
  | RunOutcome.raised _ => []
  | RunOutcome.ok out? =>
      let mc := applyPlaceholders cwp fmt vars (mainContentBase out?)
      if env.grounding_sources.isEmpty then mc
      else mc ++ [("grounding_sources", JVal.srcs env.grounding_sources),
                  ("search_queries", JVal.arr env.search_queries)]

/-- `generate_content(...)`: the returned dictionary (all values strings), for
both the success return (lines 753-758) and the catch-all error return (lines
766-772). -/
def generate_content (env : GenEnv) (cwp : Bool) (fmt : String)
    (vars : List String) : List (String × String) :=
  match env.run with
  | RunOutcome.raised msg =>
      [("error", "Failed to generate content: " ++ msg),
       ("stack_trace", env.run_tb),
       ("main", jsonObjRender []),
       ("project_type", "Unknown"),
       ("programming_language", "Unknown")]
  | RunOutcome.ok out? =>
      [("main", jsonObjRender (generate_content_obj env cwp fmt vars)),
       ("project_type", (out?.bind AgentOutput.project_type).getD "Unknown"),
       ("programming_language", (out?.bind AgentOutput.programming_language).getD "Unknown"),
       ("used_search_grounding", if env.grounding_sources.isEmpty then "false" else "true")]

/-- `json.loads(result['main'])` as a `JsonDoc` for the Markdown conversion at
lines 1177-1194: parsing the object just serialized recovers its entries, so
the parsed dict is read back field-by-field with `.get` semantics (`none` for
an absent or non-matching key). -/
def docOfObj (obj : List (String × JVal)) : JsonDoc :=
  { readme_content :=
      match obj.lookup "readme_content" with
      | some (JVal.s v) => some v
      | _ => none
    best_practices :=
      match obj.lookup "best_practices" with
      | some (JVal.arr v) => some v
      | _ => none
    suggested_extensions :=
      match obj.lookup "suggested_extensions" with
      | some (JVal.arr v) => some v
      | _ => none
    documentation_source :=
      match obj.lookup "documentation_source" with
      | some (JVal.arr v) => some v
      | _ => none
    copilot_instructions :=
      match obj.lookup "copilot_instructions" with
      | some (JVal.s v) => some v
      | _ => none }

/-! ## `main` of gemini_generator.py (lines 816-1253)

The CLI entry point, for an invocation whose argument parsing succeeded and
whose directory creation and file writes do not themselves fail.  Key facts
mirrored from the source:

* `input_data` (lines 858-867) is built from a fixed key set that does not
  include `use_existing_template`, so
  `input_data.get('use_existing_template', False)` (line 953) is always falsy
  and the template branch is skipped;
* `template_instruction` (line 911) is always the default `"{}"`, so the
  placeholder format and variable list passed to `generate_content` are always
  the defaults, not the CLI flags;
* `configure_gemini_api` (lines 367-385) raises only when `GEMINI_API_KEY` is
  unset/empty; with a key present it always returns `True`, because
  `get_available_model` catches every probe failure internally — so the
  `api_success == False` error branch (lines 957-982) is unreachable;
* after writing the result files the function always reaches `sys.exit(0)`
  (line 1209), whether or not the result carries an `error` entry.

File contents are modelled up to `json.dump`'s `indent=2` whitespace. -/

/-- Model of Python `s.lower()`. -/
def sLower (s : String) : String :=
  ⟨s.data.map Char.toLower⟩

/-- The truthy strings of line 855: `lower(arg) in ["true", "yes", "1", "t"]`.
(The round-trip through `input_data` at lines 863/897-898 preserves the
resulting boolean.) -/
def pyBoolArg (arg : String) : Bool :=
  ["true", "yes", "1", "t"].contains (sLower arg)

/-- The CLI argument values relevant to the modelled behaviour. -/
structure GeminiArgs where
  project_prompt : String
  repo_org : String
  project_name : String
  gemini_model : String
  json_output : String
  markdown_output : String
  create_with_placeholders : String
deriving Repr

/-- Environment for one `main` invocation. `tb` is the
`traceback.format_exc()` text of the unhandled-exception handler. -/
structure GeminiEnv where
  apiKeySet : Bool
  tb : String
  gen : GenEnv
deriving Repr

/-- Observable outcome of the process: exit code, the error JSON printed to
stdout (when any), and the contents written to the two output files. -/
structure MainOutcome where
  exit_code : Nat
  stdout_error : Option String
  json_file : Option String
  md_file : Option String
deriving Repr

/-- The `missing` list of lines 886-890, in source order (argparse guarantees
presence, so a "missing" parameter is one passed as the empty string). -/
def geminiMissingParams (a : GeminiArgs) : List String :=
  (if a.project_prompt = "" then ["project_prompt"] else [])
    ++ (if a.repo_org = "" then ["repo_org"] else [])
    ++ (if a.project_name = "" then ["project_name"] else [])

/-- The default placeholder format `"${%s}"` (line 917). -/
def defaultPlaceholderFormat : String := "$\x7b%s\x7d"

/-- `main()` of gemini_generator.py. -/
def geminiMain (env : GeminiEnv) (a : GeminiArgs) : MainOutcome :=
  if (geminiMissingParams a).isEmpty = false then
    { exit_code := 0,
      stdout_error := some (jsonObjRender
        [("error", JVal.s ("Missing required parameters: "
            ++ sepJoin ", " (geminiMissingParams a)))]),
      json_file := none,
      md_file := none }
  else if env.apiKeySet = false then
    let msg := "GEMINI_API_KEY environment variable not set"
    { exit_code := 1,
      stdout_error := none,
      json_file := some (jsonObjRender
        [("error", JVal.s msg), ("stack_trace", JVal.s env.tb)]),
      md_file := some ("# Error: Unhandled Exception\n\n" ++ msg
        ++ "\n\n## Stack Trace\n\n```\n" ++ env.tb ++ "\n```") }
  else
    let cwp := pyBoolArg a.create_with_placeholders
    let result := generate_content env.gen cwp defaultPlaceholderFormat validPlaceholderVarNames
    { exit_code := 0,
      stdout_error := none,
      json_file := some (jsonObjRender (result.map (fun kv => (kv.1, JVal.s kv.2)))),
      md_file := some (convert_json_to_markdown (docOfObj
        (generate_content_obj env.gen cwp defaultPlaceholderFormat validPlaceholderVarNames))) }

/-! ## The template path (gemini_generator.py lines 952-1145)

`argparse` and the selection of the template branch, plus the fallback handler
(lines 1115-1145) as its own function: `generate_content` is total, so the
nested `except fallback_error` branch (lines 1136-1145) is unreachable. -/

/-- The option strings declared by `parser.add_argument` in
gemini_generator.py's `main` (lines 831-845).  There is no
`--use_existing_template` option. -/
def geminiOptionNames : List String :=
  ["--project_prompt", "--repo_org", "--project_name", "--gemini_model",
   "--json_output", "--markdown_output", "--create_with_placeholders",
   "--enable_search_grounding", "--placeholder_format", "--placeholder_vars",
   "--temperature", "--top_p", "--top_k", "--max_output_tokens"]

/-- The option tokens of an argv that the parser does not declare. -/
def unknownOptions (argv : List String) : List String :=
  argv.filter (fun t => sStartsWith t "--" && !(geminiOptionNames.contains t))

/-- `argparse` behaviour: an undeclared option aborts the process with exit
code 2 (usage error) before any of `main`'s body runs; `none` means parsing
proceeds. -/
def argparseExit (argv : List String) : Option Nat :=
  if (unknownOptions argv).isEmpty then none else some 2

/-- The keys of the `input_data` dict built at lines 858-867.  `main` reads
`use_existing_template` from this dict with default `False` (line 953). -/
def inputDataKeys : List String :=
  ["project_prompt", "repo_org", "project_name", "gemini_model",
   "create_with_placeholders", "enable_search_grounding",
   "placeholder_format", "placeholder_variables"]

/-- The `except` handler of the template branch (lines 1115-1135): on a
template fetch/processing exception `e`, fall back to the `generate_content`
result `gen`, annotating it with the original error and stack trace when it
does not already carry an `"error"` entry. -/
def templateFallback (e stack_trace : String) (gen : List (String × String)) :
    List (String × String) :=
  if (gen.lookup "error").isNone then
    gen ++ [("template_processing_error", e),
            ("template_processing_stack_trace", stack_trace)]
  else gen

/-! ## Concrete inputs used by witnesses and counterexamples -/

/-- Capabilities witness: temperature ceiling 1, token ceiling 8192. -/
def capsW : ModelCapabilities := ⟨1, 95/100, 40, 8192⟩

/-- Out-of-range sampling configuration used to exercise `clamp`. -/
def cfgW : SamplingConfig := ⟨2, 2, 0, 999999, 1⟩

/-- A fully generated document with every list empty and every string empty:
the claim C4 instance on which the Copilot heading disappears. -/
def emptyFieldsDoc : JsonDoc := ⟨some "", some [], some [], some [], some ""⟩

/-- A document with a non-empty Copilot-instructions field. -/
def copilotDoc : JsonDoc :=
  ⟨some "# Widget", some ["Use tests"], some [], some [], some "Be helpful"⟩

/-- An invocation whose `--project_prompt` is the empty string (a missing
required parameter in the sense of lines 886-893). -/
def argsMissingPrompt : GeminiArgs :=
  ⟨"", "acme", "Widget", "gemini-1.5-pro-latest", "out.json", "out.md", "false"⟩

/-- A fully supplied invocation. -/
def argsFull : GeminiArgs :=
  ⟨"A CLI widget", "acme", "Widget", "gemini-1.5-pro-latest", "out.json", "out.md", "false"⟩

/-- The invocation of the repository's own `test_error_handling.py`. -/
def argsErrorTest : GeminiArgs :=
  ⟨"This is a test prompt that will fail.", "test-org", "Test Error Handling",
   "gemini-1.5-pro-latest", "test_error_handling_output/output.json",
   "test_error_handling_output/output.md", "false"⟩

/-- A healthy environment whose agent run completes without usable output. -/
def envOkRun : GeminiEnv := ⟨true, "TB", ⟨RunOutcome.ok none, "", [], []⟩⟩

/-- Environment with no `GEMINI_API_KEY` in the process environment. -/
def envNoKey : GeminiEnv := ⟨false, "Traceback: ValueError", ⟨RunOutcome.ok none, "", [], []⟩⟩

/-- Environment for `GEMINI_API_KEY=INVALID_KEY_FOR_TESTING`: the key is
present, `genai.configure` stores it without validation, every probe and the
agent run fail with the provider's invalid-key rejection. -/
def envBadKey : GeminiEnv :=
  ⟨true, "TB",
   ⟨RunOutcome.raised "400 The API key is not valid. Please pass a valid API key.",
    "Traceback (most recent call last): ...", [], []⟩⟩

/-- The spec's §8 end-to-end scenario argv: `--use_existing_template` with a
template repository, alongside the required arguments. -/
def scenarioArgv : List String :=
  ["--project_prompt", "A CLI widget", "--repo_org", "acme",
   "--project_name", "Widget", "--json_output", "out.json",
   "--markdown_output", "out.md",
   "--use_existing_template", "true",
   "--template_repo", "acme/unreachable", "--template_path", "template.json"]

/-- A base64/UTF-8 decoding oracle used by the C8 witness. -/
def b64W : String → Except String String :=
  fun s => Except.ok ("[decoded]" ++ s)

/-- Environment whose agent run raises, for the C10 witness. -/
def envRaisedW : GenEnv := ⟨RunOutcome.raised "boom", "TB-RAISED", [], []⟩

/-! ## Helper lemmas -/

/-- A pattern occurring between two other pieces is found by the containment
scan. -/
theorem charsHave_append (pat pre post : List Char) :
    charsHave pat (pre ++ (pat ++ post)) = true := by
  induction pre with
  | nil =>
    simp only [List.nil_append]
    match pat with
    | [] => cases post <;> simp [charsHave, List.isPrefixOf]
    | p :: ps =>
      have h : (p :: ps).isPrefixOf ((p :: ps) ++ post) = true := by
        rw [List.isPrefixOf_iff_prefix]
        exact List.prefix_append _ _
      simp only [List.cons_append] at h ⊢
      simp [charsHave, h]
  | cons c cs ih =>
    simp only [List.cons_append]
    simp [charsHave, ih]

/-- Substring containment of an explicitly decomposed string. -/
theorem sContains_append_mid (a pat b : String) :
    sContains (a ++ (pat ++ b)) pat = true := by
  unfold sContains
  rw [String.data_append, String.data_append]
  exact charsHave_append pat.data a.data b.data

/-- The candidate walk returns the first probe-successful candidate, or the
legacy name when the list is exhausted. -/
theorem tryCandidates_eq_find (probe : String → Bool) (l : List String) :
    tryCandidates probe l = (l.find? probe).getD "gemini-pro" := by
  induction l with
  | nil => rfl
  | cons c rest ih =>
    cases h : probe c <;> simp [tryCandidates, List.find?_cons, h, ih]

/-! ## Claim C1 -/

/-- C1: evaluation of `MainContentGenerator.generate`'s exception branch.  The
`except` handler itself never re-raises (pydantic construction with extra
keywords succeeds), but because `models.py`'s `ProjectOutput` declares no
`error` or `stack_trace` field, pydantic's default extra-keyword handling drops
both: the returned object stores no `error` and no `stack_trace` value — the
exception details survive only inside `readme_content`.  This contradicts the
claim (and main.py's own later reads of `.error`). -/
theorem C1_error_fields_dropped (msg tb : String) :
    (mainGenerateOnException msg tb).lookup "error" = none ∧
    (mainGenerateOnException msg tb).lookup "stack_trace" = none ∧
    (mainGenerateOnException msg tb).lookup "readme_content" =
      some (PyV.s ("# Error in Main Content Generation\n\nError: " ++ msg
        ++ "\n\n```\n" ++ tb ++ "\n```")) ∧
    projectOutputFields.contains "error" = false ∧
    projectOutputFields.contains "stack_trace" = false :=
  ⟨rfl, rfl, rfl, rfl, rfl⟩

/-! ## Claim C2 -/

/-- C2 counterexample: the probe of `"models/gemini-pro"` succeeds (the probe
oracle accepts every name), yet `get_available_model` does not return the
identifier unchanged — it strips the `models/` prefix first. -/
theorem C2_counterexample :
    (fun _ : String => true) "models/gemini-pro" = true ∧
    get_available_model (fun _ => true) "models/gemini-pro" ≠ "models/gemini-pro" :=
  ⟨rfl, by decide⟩

/-- C2 amended: after normalising the requested identifier (stripping an
optional `google-gla:` and then `models/` prefix), a successful probe returns
the *normalised* identifier; otherwise the first successful candidate of the
fixed fallback list is returned, and `"gemini-pro"` when every probe fails —
the function is total and never raises. -/
theorem C2_resolve_model (probe : String → Bool) (requested : String) :
    get_available_model probe requested =
      (if probe (stripModelName requested) then stripModelName requested
       else (candidate_models.find? probe).getD "gemini-pro") := by
  unfold get_available_model
  cases h : probe (stripModelName requested) <;>
    simp [h, tryCandidates_eq_find]

/-! ## Claim C3 -/

/-- C3: for capability bounds that admit a valid value (a nonnegative
temperature ceiling and a positive token ceiling), `clamp` yields a
configuration inside all four ranges and is idempotent; it is total by
construction. -/
theorem C3_clamp_bounds_idempotent (c : SamplingConfig) (caps : ModelCapabilities)
    (h1 : 0 ≤ caps.temperature_ceiling) (h2 : 1 ≤ caps.output_token_ceiling) :
    0 ≤ (clamp c caps).temperature ∧
    (clamp c caps).temperature ≤ caps.temperature_ceiling ∧
    0 ≤ (clamp c caps).top_p ∧ (clamp c caps).top_p ≤ 1 ∧
    0 < (clamp c caps).top_k ∧
    0 < (clamp c caps).max_output_tokens ∧
    (clamp c caps).max_output_tokens ≤ caps.output_token_ceiling ∧
    clamp (clamp c caps) caps = clamp c caps := by
  have htemp : max 0 (min c.temperature caps.temperature_ceiling) ≤ caps.temperature_ceiling :=
    max_le h1 (min_le_right _ _)
  have htok : max 1 (min c.max_output_tokens caps.output_token_ceiling) ≤ caps.output_token_ceiling :=
    max_le h2 (min_le_right _ _)
  refine ⟨le_max_left _ _, htemp, le_max_left _ _,
    max_le zero_le_one (min_le_right _ _),
    lt_max_of_lt_left one_pos, lt_max_of_lt_left one_pos, htok, ?_⟩
  simp only [clamp, SamplingConfig.mk.injEq]
  refine ⟨?_, ?_, ?_, ?_, trivial⟩
  · rw [min_eq_left htemp]
    exact max_eq_right (le_max_left _ _)
  · rw [min_eq_left (max_le zero_le_one (min_le_right _ _))]
    exact max_eq_right (le_max_left _ _)
  · exact max_eq_right (le_max_left _ _)
  · rw [min_eq_left htok]
    exact max_eq_right (le_max_left _ _)

/-- C3 witness: the theorem applied to a concrete out-of-range configuration
and concrete capabilities. -/
theorem C3_clamp_witness :
    ((0 : ℚ) ≤ capsW.temperature_ceiling ∧ (1 : ℤ) ≤ capsW.output_token_ceiling) ∧
    (0 ≤ (clamp cfgW capsW).temperature ∧
     (clamp cfgW capsW).temperature ≤ capsW.temperature_ceiling ∧
     0 ≤ (clamp cfgW capsW).top_p ∧ (clamp cfgW capsW).top_p ≤ 1 ∧
     0 < (clamp cfgW capsW).top_k ∧
     0 < (clamp cfgW capsW).max_output_tokens ∧
     (clamp cfgW capsW).max_output_tokens ≤ capsW.output_token_ceiling ∧
     clamp (clamp cfgW capsW) capsW = clamp cfgW capsW) :=
  ⟨⟨by norm_num [capsW], by norm_num [capsW]⟩,
   C3_clamp_bounds_idempotent cfgW capsW (by norm_num [capsW]) (by norm_num [capsW])⟩

/-! ## Claim C8 -/

/-- C8: `fetch_github_template` raises an explicit `ValueError` naming the
path when the remote path is a directory, an explicit `ValueError` when the
response carries no `content` field, wraps every transport error with the
repository and path, and on success returns the base64-decoded file text
(newlines stripped from the wrapped payload first). -/
theorem C8_fetch_github_template (repo path m raw t : String)
    (b64 : String → Except String String) :
    (fetch_github_template repo path (GithubResponse.transportError m) b64 =
       Except.error ("Failed to fetch template from " ++ repo ++ "/" ++ path ++ ": " ++ m)) ∧
    (fetch_github_template repo path GithubResponse.dir b64 =
       Except.error ("Path \x27" ++ path ++ "\x27 refers to a directory, not a file")) ∧
    (fetch_github_template repo path (GithubResponse.file none) b64 =
       Except.error ("No content found in the response for " ++ path)) ∧
    (b64 (removeNewlines raw) = Except.ok t →
       fetch_github_template repo path (GithubResponse.file (some raw)) b64 = Except.ok t) := by
  refine ⟨rfl, rfl, rfl, fun h => ?_⟩
  simp [fetch_github_template, h]

/-- C8 witness: the success case at a concrete payload and decoding oracle. -/
theorem C8_fetch_github_template_witness :
    b64W (removeNewlines "SGVsbG8=\n") = Except.ok "[decoded]SGVsbG8=" ∧
    fetch_github_template "acme/repo" "template.json"
      (GithubResponse.file (some "SGVsbG8=\n")) b64W = Except.ok "[decoded]SGVsbG8=" :=
  ⟨rfl,
   (C8_fetch_github_template "acme/repo" "template.json" "" "SGVsbG8=\n"
     "[decoded]SGVsbG8=" b64W).2.2.2 rfl⟩

/-! ## Claim C9 -/

/-- C9: evaluation of `create_template_with_placeholders` at a concrete input.
Content holding the concrete generated values (`Widget`, `acme`) passes
through unchanged, while content holding the literal variable *name*
`project_name` is rewritten to the marker: the function replaces variable-name
substrings, not the concrete values its own docstring promises to replace
(the concrete values are never passed to it). -/
theorem C9_replaces_names_not_values :
    create_template_with_placeholders "Widget is made by acme"
      defaultPlaceholderFormat validPlaceholderVarNames = "Widget is made by acme" ∧
    create_template_with_placeholders "project_name: Widget"
      defaultPlaceholderFormat validPlaceholderVarNames =
      "$\x7bproject_name\x7d: Widget" := by
  exact ⟨by decide, by decide⟩

/-- Peeling a leading piece preserves containment. -/
theorem charsHave_append_right (pat pre l : List Char) (h : charsHave pat l = true) :
    charsHave pat (pre ++ l) = true := by
  induction pre with
  | nil => simpa using h
  | cons c cs ih =>
    simp only [List.cons_append]
    simp [charsHave, ih]

/-- Containment of the pattern standing at the head. -/
theorem charsHave_self_append (pat post : List Char) :
    charsHave pat (pat ++ post) = true :=
  charsHave_append pat [] post

/-! ## Claim C4 -/

/-- C4 counterexample: on a generated document whose list fields are empty and
whose string fields are empty strings, the rendered Markdown has headings for
the three list sections but *omits* the assistant/Copilot-instructions heading
— the `if json_data.get("copilot_instructions")` guard treats the empty string
as falsy and skips the whole section. -/
theorem C4_counterexample :
    sContains (convert_json_to_markdown emptyFieldsDoc) "## Best Practices" = true ∧
    sContains (convert_json_to_markdown emptyFieldsDoc) "## Recommended VS Code Extensions" = true ∧
    sContains (convert_json_to_markdown emptyFieldsDoc) "## Documentation Sources" = true ∧
    sContains (convert_json_to_markdown emptyFieldsDoc) "## GitHub Copilot Instructions" = false := by
  decide

/-- C4 amended: rendering is total (the function below is total by
construction for every `JsonDoc`, including empty-list and empty-string
fields), and the rendered Markdown always contains the headings of the three
list sections (best practices, suggested extensions, documentation sources);
the assistant/Copilot-instructions heading is present exactly when that field
is non-empty, and is omitted for an empty or absent field. -/
theorem C4_render_sections (j : JsonDoc) :
    sContains (convert_json_to_markdown j) "## Best Practices\n" = true ∧
    sContains (convert_json_to_markdown j) "## Recommended VS Code Extensions\n" = true ∧
    sContains (convert_json_to_markdown j) "## Documentation Sources\n" = true ∧
    (j.copilot_instructions.getD "" ≠ "" →
      sContains (convert_json_to_markdown j) "## GitHub Copilot Instructions\n" = true) := by
  refine ⟨?_, ?_, ?_, fun h => ?_⟩
  · simp only [convert_json_to_markdown, sContains, String.data_append, List.append_assoc]
    apply charsHave_append_right
    apply charsHave_append_right
    exact charsHave_self_append _ _
  · simp only [convert_json_to_markdown, sContains, String.data_append, List.append_assoc]
    apply charsHave_append_right
    apply charsHave_append_right
    apply charsHave_append_right
    apply charsHave_append_right
    apply charsHave_append_right
    exact charsHave_self_append _ _
  · simp only [convert_json_to_markdown, sContains, String.data_append, List.append_assoc]
    apply charsHave_append_right
    apply charsHave_append_right
    apply charsHave_append_right
    apply charsHave_append_right
    apply charsHave_append_right
    apply charsHave_append_right
    apply charsHave_append_right
    apply charsHave_append_right
    exact charsHave_self_append _ _
  · simp only [convert_json_to_markdown, if_pos h, sContains, String.data_append,
      List.append_assoc]
    apply charsHave_append_right
    apply charsHave_append_right
    apply charsHave_append_right
    apply charsHave_append_right
    apply charsHave_append_right
    apply charsHave_append_right
    apply charsHave_append_right
    apply charsHave_append_right
    apply charsHave_append_right
    apply charsHave_append_right
    apply charsHave_append_right
    exact charsHave_self_append _ _

/-- C4 witness: the Copilot heading appears for a document with a non-empty
instructions field. -/
theorem C4_render_sections_witness :
    copilotDoc.copilot_instructions.getD "" ≠ "" ∧
    sContains (convert_json_to_markdown copilotDoc) "## GitHub Copilot Instructions\n" = true :=
  ⟨by decide, (C4_render_sections copilotDoc).2.2.2 (by decide)⟩

/-! ## Claim C10 -/

/-- C10: the dictionary returned by `generate_content` always contains the
keys `main` (the serialization of a JSON object), `project_type` and
`programming_language`; on the exception branch it additionally carries
`error` and `stack_trace`, with both identification fields defaulted to
`"Unknown"`, and on the success branch no `error` key is present. -/
theorem C10_generate_content_shape (env : GenEnv) (cwp : Bool) (fmt : String)
    (vars : List String) :
    (∃ obj, (generate_content env cwp fmt vars).lookup "main" =
      some (jsonObjRender obj)) ∧
    ((generate_content env cwp fmt vars).lookup "project_type").isSome = true ∧
    ((generate_content env cwp fmt vars).lookup "programming_language").isSome = true ∧
    (∀ msg, env.run = RunOutcome.raised msg →
      (generate_content env cwp fmt vars).lookup "error" =
        some ("Failed to generate content: " ++ msg) ∧
      (generate_content env cwp fmt vars).lookup "stack_trace" = some env.run_tb ∧
      (generate_content env cwp fmt vars).lookup "project_type" = some "Unknown" ∧
      (generate_content env cwp fmt vars).lookup "programming_language" = some "Unknown") ∧
    (∀ out?, env.run = RunOutcome.ok out? →
      (generate_content env cwp fmt vars).lookup "error" = none) := by
  obtain ⟨run, rtb, gs, sq⟩ := env
  cases run with
  | raised m =>
    refine ⟨⟨[], rfl⟩, rfl, rfl, fun msg h => ?_, fun out? h => RunOutcome.noConfusion h⟩
    injection h with h2
    subst h2
    exact ⟨rfl, rfl, rfl, rfl⟩
  | ok out? =>
    refine ⟨⟨generate_content_obj ⟨RunOutcome.ok out?, rtb, gs, sq⟩ cwp fmt vars, rfl⟩,
      rfl, rfl, fun msg h => RunOutcome.noConfusion h, fun o h => rfl⟩

/-- C10 witness: the error branch at a concrete environment. -/
theorem C10_generate_content_shape_witness :
    envRaisedW.run = RunOutcome.raised "boom" ∧
    (generate_content envRaisedW false defaultPlaceholderFormat
      validPlaceholderVarNames).lookup "error" =
      some "Failed to generate content: boom" :=
  ⟨rfl,
   ((C10_generate_content_shape envRaisedW false defaultPlaceholderFormat
      validPlaceholderVarNames).2.2.2.1 "boom" rfl).1⟩

/-! ## Claim C5 -/

/-- C5 counterexample: an invocation whose required `--project_prompt` value
is empty is a configuration failure, yet the process prints an error JSON to
stdout, writes no output files, and exits with code 0 (gemini_generator.py
line 893: `sys.exit(0)  # Exit with 0 to provide error in JSON format for
Terraform`). -/
theorem C5_counterexample :
    (geminiMain envOkRun argsMissingPrompt).exit_code = 0 ∧
    (geminiMain envOkRun argsMissingPrompt).stdout_error =
      some (jsonObjRender
        [("error", JVal.s "Missing required parameters: project_prompt")]) ∧
    (geminiMain envOkRun argsMissingPrompt).json_file = none ∧
    (geminiMain envOkRun argsMissingPrompt).md_file = none :=
  ⟨rfl, rfl, rfl, rfl⟩

/-- C5 amended: for the modelled invocations (parsing succeeded, file writes
succeed), `gemini_generator.main` exits 1 exactly when `GEMINI_API_KEY` is
unset/empty (having written error content to both output files first); empty
required parameters print an error JSON to stdout and exit 0; and every other
invocation — including those whose generation failed and whose output files
carry an `error` entry — exits 0. -/
theorem C5_exit_codes (env : GeminiEnv) (a : GeminiArgs) :
    ((geminiMain env a).exit_code = 1 ↔
      ((geminiMissingParams a).isEmpty = true ∧ env.apiKeySet = false)) ∧
    ((geminiMain env a).exit_code = 1 →
      (geminiMain env a).json_file.isSome = true ∧
      (geminiMain env a).md_file.isSome = true) ∧
    ((geminiMain env a).exit_code = 0 ∨ (geminiMain env a).exit_code = 1) := by
  cases hm : (geminiMissingParams a).isEmpty <;> cases hk : env.apiKeySet <;>
    simp [geminiMain, hm, hk]

/-- C5 witness: the exit-1 branch at a concrete keyless environment, with both
error files written. -/
theorem C5_exit_codes_witness :
    (geminiMain envNoKey argsFull).exit_code = 1 ∧
    (geminiMain envNoKey argsFull).json_file.isSome = true ∧
    (geminiMain envNoKey argsFull).md_file.isSome = true :=
  ⟨rfl, (C5_exit_codes envNoKey argsFull).2.1 rfl⟩

/-! ## Claim C6 -/

/-- C6: evaluation of the repository's own error-handling test scenario
(`GEMINI_API_KEY` set to an invalid value).  `configure_gemini_api` still
reports success (`get_available_model` swallows every probe failure), the
generation failure is swallowed by `generate_content`, and the process exits
0 — not non-zero — while the written Markdown file contains no `"Error"`
substring at all (the JSON file does record the provider rejection). -/
theorem C6_invalid_key_behaviour :
    (geminiMain envBadKey argsErrorTest).exit_code = 0 ∧
    sContains ((geminiMain envBadKey argsErrorTest).md_file.getD "") "Error" = false ∧
    sContains ((geminiMain envBadKey argsErrorTest).json_file.getD "")
      "API key is not valid" = true := by
  refine ⟨rfl, ?_, ?_⟩ <;> decide

/-! ## Claim C7 -/

/-- C7 counterexample: the spec's end-to-end scenario passes
`--use_existing_template`, but gemini_generator.py's parser declares no such
option, so `argparse` aborts the process with exit code 2 before any content
generation or file writing; moreover `input_data` never carries a
`use_existing_template` key, so no CLI invocation can select the template
branch. -/
theorem C7_counterexample :
    argparseExit scenarioArgv = some 2 ∧
    unknownOptions scenarioArgv =
      ["--use_existing_template", "--template_repo", "--template_path"] ∧
    inputDataKeys.contains "use_existing_template" = false := by
  decide

/-- C7 amended: the template-branch exception handler (lines 1115-1145), when
it is reached with any fetch/processing error, produces exactly the
`generate_content` fallback result (plus annotation keys), so `main`,
`project_type` and `programming_language` come from the generated — not
fetched — content; but the branch is unreachable from the CLI: the parser has
no `--use_existing_template` option and `input_data` has no such key. -/
theorem C7_template_fallback (env : GenEnv) (e tb : String) (cwp : Bool)
    (fmt : String) (vars : List String) :
    (templateFallback e tb (generate_content env cwp fmt vars)).lookup "project_type" =
      (generate_content env cwp fmt vars).lookup "project_type" ∧
    (templateFallback e tb (generate_content env cwp fmt vars)).lookup "main" =
      (generate_content env cwp fmt vars).lookup "main" ∧
    (templateFallback e tb (generate_content env cwp fmt vars)).lookup "programming_language" =
      (generate_content env cwp fmt vars).lookup "programming_language" ∧
    inputDataKeys.contains "use_existing_template" = false := by
  obtain ⟨run, rtb, gs, sq⟩ := env
  cases run <;> exact ⟨rfl, rfl, rfl, rfl⟩

end TfPrompt
